import Mathlib

/-!
Verification of the `create_s3_sink` command of cp-kafka-connect-manager
(`src/kafkaconnect/s3_sink/cli.py`) against its natural-language
specification.

The command body (lines 249-325 of `cli.py`) is embedded as a pure
function.  External effects are supplied by environment records:

* the result of `Topic(config.broker_url, topic_regex, excluded_topics).names`
  (topic discovery) is an `Except ExKind (List String)` — `.error` models the
  call raising an exception;
* `connect.validate` returns a raw response string, and the outcome of
  `json.loads(validation)["error_count"]` is an `Option Int` (`none` models
  the extraction raising, which the code catches with a bare `except`);
* `connect.create_or_update` is `Except ExKind Unit` — `.error` models the
  call raising.

Every `click.echo` is recorded in an echo trace and every gateway method
call in a call trace, so that frame conditions ("no gateway call is made")
are statements about the traces.
-/

namespace KafkaConnect

/-- Kinds of Python exceptions the code distinguishes: the loop body's
`except KeyboardInterrupt` catches exactly `KeyboardInterrupt`; every other
exception (`other`) propagates. -/
inductive ExKind where
  | keyboardInterrupt
  | other
deriving DecidableEq, Repr

/-- Modelled from the spec: the ConnectorConfig document built by `S3Config`
(`s3_sink/config.py`, not part of the sources under review).  The fields are
the constructor arguments passed at `cli.py` lines 250-263 plus the `topics`
field that `update_topics` replaces. -/
structure S3Config where
  name : String
  s3_bucket_name : String
  s3_region : String
  topics_dir : String
  flush_size : Int
  rotate_interval_ms : Int
  partition_duration_ms : Int
  tasks_max : Int
  locale : String
  timezone : String
  timestamp_extractor : String
  timestamp_field : String
  topics : List String := []
deriving DecidableEq, Repr

/-- Modelled from the spec: `ConnectorConfigBuilder.with_topics` — the
`S3Config.update_topics` method replaces the topics field and nothing else. -/
def S3Config.update_topics (c : S3Config) (ts : List String) : S3Config :=
  { c with topics := ts }

/-- Modelled from the spec: the `connector_class` attribute of `S3Config`,
used by `cli.py` as the `name` argument of both `connect.validate` calls.
Its concrete value is irrelevant to every claim. -/
def S3Config.connector_class : String := "io.confluent.connect.s3.S3SinkConnector"

/-- A method call on the ConnectGateway (`Connect` in `cli.py`).  The
configuration document is carried as the structured `S3Config` value;
`asjson` serialization is abstracted away (no claim depends on the JSON
text, only on which document is sent). -/
inductive GatewayCall where
  | validate (name : String) (config : S3Config)
  | create_or_update (name : String) (config : S3Config)
deriving DecidableEq, Repr

/-- True exactly on `validate` calls. -/
def GatewayCall.isValidate : GatewayCall → Bool
  | .validate _ _ => true
  | .create_or_update _ _ => false

/-- One `click.echo` emission.  `doc` abstracts `click.echo(s3config.asjson())`
(line 287); `raw` abstracts echoing the raw validation response body
(lines 278-283 and 303). -/
inductive Echo where
  | text (s : String)
  | doc (c : S3Config)
  | raw (s : String)
deriving DecidableEq, Repr

/-- Environment of the one-shot apply phase (lines 267-306). -/
structure ApplyEnv where
  /-- Result of the `Topic(...).names` discovery at line 270 (only consulted
  when the positional TOPICLIST is empty); `.error` models the call raising. -/
  discovered : Except ExKind (List String)
  /-- Raw response body returned by `connect.validate` (both the line 279
  call and the line 290 call return this run's response). -/
  validateResponse : String
  /-- Outcome of `json.loads(validation)["error_count"]` at line 294 on this
  run's response: `some n` when an integer is extracted, `none` when the
  parse/extraction raises (caught by the bare `except` at line 302). -/
  error_count : Option Int
deriving Repr

/-- How the apply phase leaves the command. -/
inductive ApplyResult where
  /-- A `return` statement executed with this exit code. -/
  | exit (code : Nat)
  /-- The discovery call at line 270 raised; nothing catches it there. -/
  | crashed (e : ExKind)
  /-- Control fell through to line 307 (`if auto_update:`) with this value
  of the local variable `topics`. -/
  | fallthrough (topics : List String)
deriving DecidableEq, Repr

/-- Output of the apply phase: echo trace, gateway-call trace, and how
control left the phase. -/
structure ApplyOut where
  echoes : List Echo
  calls : List GatewayCall
  result : ApplyResult
deriving DecidableEq, Repr

/-- Lines 274-306 of `cli.py`: the body of `if topics:` for a non-empty
`topics` list, with `pre` the echoes already emitted by discovery.

Note the control flow of lines 293-304: the `try` block ends in an
unconditional `return 0` and the `except` block in `return 1`, so the
`click.echo("Uploading ...")` and `connect.create_or_update` at lines
305-306 are unreachable dead code and have no counterpart here. -/
def applyNonEmpty (cfg : S3Config) (v d : Bool)
    (topics : List String) (env : ApplyEnv) (pre : List Echo) : ApplyOut :=
  let cfg1 := cfg.update_topics topics
  if v then
    -- lines 277-284: echo the raw validate response, return 0
    { echoes := pre ++ [.raw env.validateResponse],
      calls := [.validate S3Config.connector_class cfg1],
      result := .exit 0 }
  else if d then
    -- lines 286-288: echo the configuration document, return 0
    { echoes := pre ++ [.doc cfg1], calls := [], result := .exit 0 }
  else
    -- lines 290-304
    match env.error_count with
    | some ec =>
      { echoes := pre ++ [.text ("Validation returned " ++ toString ec ++ " error(s).")]
          ++ (if ec > 0 then
                [Echo.text
                  "Use the --validate option to return the validation results."]
              else []),
        calls := [.validate S3Config.connector_class cfg1],
        result := .exit 0 }
    | none =>
      { echoes := pre ++ [.raw env.validateResponse],
        calls := [.validate S3Config.connector_class cfg1],
        result := .exit 1 }

/-- Lines 267-306 of `cli.py`: resolve the topic list (positional arguments,
else discovery) and run the non-empty apply body when the list is non-empty. -/
def applyPhase (cfg : S3Config) (v d : Bool)
    (topiclist : List String) (env : ApplyEnv) : ApplyOut :=
  match topiclist with
  | t :: ts => applyNonEmpty cfg v d (t :: ts) env []
  | [] =>
    match env.discovered with
    | .error e =>
      { echoes := [.text "Discoverying Kafka topics..."], calls := [],
        result := .crashed e }
    | .ok ds =>
      let pre : List Echo :=
        [.text "Discoverying Kafka topics...",
         .text ("Found " ++ toString ds.length ++ " topics.")]
      match ds with
      | [] => { echoes := pre, calls := [], result := .fallthrough [] }
      | t :: ts => applyNonEmpty cfg v d (t :: ts) env pre

/-- The topic list the command works with: the positional TOPICLIST when
non-empty, otherwise the discovery result (lines 267-270). -/
def resolveTopics (topiclist : List String) (env : ApplyEnv) :
    Except ExKind (List String) :=
  match topiclist with
  | [] => env.discovered
  | t :: ts => .ok (t :: ts)

/-- Environment of one iteration of the auto-update loop (lines 308-324). -/
structure TickEnv where
  /-- Result of the `Topic(...).names` discovery at lines 312-314. -/
  discovered : Except ExKind (List String)
  /-- Outcome of the `connect.create_or_update` call at lines 319-321. -/
  upsert : Except ExKind Unit
deriving Repr

/-- Outcome of one loop iteration.  Every constructor carries the value of
the local variable `topics` (the last applied set) and of `s3config` after
the iteration, plus the echoes and gateway calls it produced. -/
inductive TickOut where
  /-- The iteration completed; the loop proceeds to the next tick. -/
  | next (topics : List String) (cfg : S3Config)
      (echoes : List Echo) (calls : List GatewayCall)
  /-- A `KeyboardInterrupt` was caught at line 323 and re-raised as
  `click.ClickException("Interruped.")`: clean termination. -/
  | stopped (topics : List String) (cfg : S3Config)
      (echoes : List Echo) (calls : List GatewayCall)
  /-- An exception other than `KeyboardInterrupt` escaped the `try`: the
  loop (and the command) terminates abnormally. -/
  | crashed (e : ExKind) (topics : List String) (cfg : S3Config)
      (echoes : List Echo) (calls : List GatewayCall)
deriving DecidableEq, Repr

/-- The gateway calls an iteration produced. -/
def TickOut.callsOf : TickOut → List GatewayCall
  | .next _ _ _ cs => cs
  | .stopped _ _ _ cs => cs
  | .crashed _ _ _ _ cs => cs

/-- One iteration of the `while True:` loop, lines 309-324 of `cli.py`.

`new_topics = list(set(current_topics) - set(topics))` is embedded as
`current.filter (fun t => !(topics.contains t))`: the code only tests the
difference for non-emptiness (`if new_topics:`), and the filter is empty
exactly when the Python set difference is.  On a non-empty difference the
code mutates `s3config` with the full `current_topics` list, calls
`create_or_update`, and only then assigns `topics = current_topics`; an
exception from the call therefore skips the assignment.  The `except`
clause catches only `KeyboardInterrupt`.  `loopTickDiscovered` is the part
of the iteration after a successful discovery. -/
def loopTickDiscovered (name : String) (topics : List String) (cfg : S3Config)
    (upsert : Except ExKind Unit) (current : List String) : TickOut :=
  match current.filter (fun t => !(topics.contains t)) with
  | [] => .next topics cfg [] []
  | _ :: _ =>
    let cfg1 := cfg.update_topics current
    let call := GatewayCall.create_or_update name cfg1
    let es := [Echo.text "Found new topics, updating the connector..."]
    match upsert with
    | .error ExKind.keyboardInterrupt => .stopped topics cfg1 es [call]
    | .error e => .crashed e topics cfg1 es [call]
    | .ok _ => .next current cfg1 es [call]

/-- One iteration of the `while True:` loop, lines 309-324 of `cli.py`:
dispatch on the discovery outcome, then `loopTickDiscovered`. -/
def loopTick (name : String) (topics : List String) (cfg : S3Config)
    (env : TickEnv) : TickOut :=
  match env.discovered with
  | .error ExKind.keyboardInterrupt => .stopped topics cfg [] []
  | .error e => .crashed e topics cfg [] []
  | .ok current => loopTickDiscovered name topics cfg env.upsert current

/-- Final state of a (finite prefix of a) loop run. -/
inductive LoopResult where
  /-- The supplied tick environments are exhausted; the `while True:` loop
  is still running with this state. -/
  | running (topics : List String) (cfg : S3Config)
  /-- Terminated by the re-raised `ClickException` after `KeyboardInterrupt`. -/
  | stopped (topics : List String) (cfg : S3Config)
  /-- Terminated by a propagating exception. -/
  | crashed (e : ExKind) (topics : List String) (cfg : S3Config)
deriving DecidableEq, Repr

/-- Accumulated output of a loop run. -/
structure LoopOut where
  echoes : List Echo
  calls : List GatewayCall
  result : LoopResult
deriving DecidableEq, Repr

/-- Run the auto-update loop over a finite list of tick environments,
starting from the given `topics` / `s3config` state. -/
def loopRun (name : String) (topics : List String) (cfg : S3Config) :
    List TickEnv → LoopOut
  | [] => { echoes := [], calls := [], result := .running topics cfg }
  | env :: rest =>
    match loopTick name topics cfg env with
    | .next ts cfg1 es cs =>
      let out := loopRun name ts cfg1 rest
      { echoes := es ++ out.echoes, calls := cs ++ out.calls,
        result := out.result }
    | .stopped ts cfg1 es cs =>
      { echoes := es, calls := cs, result := .stopped ts cfg1 }
    | .crashed e ts cfg1 es cs =>
      { echoes := es, calls := cs, result := .crashed e ts cfg1 }

/-- Environment of a whole command invocation. -/
structure CmdEnv where
  apply : ApplyEnv
  ticks : List TickEnv
deriving Repr

/-- Final state of a whole command invocation. -/
inductive CmdResult where
  | exit (code : Nat)
  | crashed (e : ExKind)
  | loop (r : LoopResult)
deriving DecidableEq, Repr

/-- True exactly when the invocation entered the auto-update loop. -/
def CmdResult.isLoop : CmdResult → Bool
  | .loop _ => true
  | _ => false

/-- Output of a whole command invocation. -/
structure Run where
  echoes : List Echo
  calls : List GatewayCall
  result : CmdResult
deriving DecidableEq, Repr

/-- The whole `create_s3_sink` command body, lines 249-325 of `cli.py`:
the apply phase followed, when control falls through to line 307 and
`auto_update` is set, by the auto-update loop.  `v`, `d`, `au` are the
`--validate`, `--dry-run` and `--auto-update` flags. -/
def create_s3_sink (cfg : S3Config) (name : String) (v d au : Bool)
    (topiclist : List String) (env : CmdEnv) : Run :=
  match (applyPhase cfg v d topiclist env.apply).result with
  | .exit c =>
    { echoes := (applyPhase cfg v d topiclist env.apply).echoes,
      calls := (applyPhase cfg v d topiclist env.apply).calls,
      result := .exit c }
  | .crashed e =>
    { echoes := (applyPhase cfg v d topiclist env.apply).echoes,
      calls := (applyPhase cfg v d topiclist env.apply).calls,
      result := .crashed e }
  | .fallthrough topics =>
    if au then
      { echoes := (applyPhase cfg v d topiclist env.apply).echoes ++
          (loopRun name topics cfg env.ticks).echoes,
        calls := (applyPhase cfg v d topiclist env.apply).calls ++
          (loopRun name topics cfg env.ticks).calls,
        result := .loop (loopRun name topics cfg env.ticks).result }
    else
      { echoes := (applyPhase cfg v d topiclist env.apply).echoes,
        calls := (applyPhase cfg v d topiclist env.apply).calls,
        result := .exit 0 }

/-- A concrete base configuration used by witnesses and counterexamples;
its field values are arbitrary. -/
def sampleCfg : S3Config :=
  { name := "s3-sink", s3_bucket_name := "bucket", s3_region := "us-east-1",
    topics_dir := "topics", flush_size := 1, rotate_interval_ms := 600000,
    partition_duration_ms := 3600000, tasks_max := 1, locale := "en-US",
    timezone := "UTC", timestamp_extractor := "Record",
    timestamp_field := "time", topics := [] }

/-- The non-empty apply body always executes a `return`: its result is an
exit.  (In particular it never falls through to line 307.) -/
theorem applyNonEmpty_exit (cfg : S3Config) (v d : Bool) (topics : List String)
    (env : ApplyEnv) (pre : List Echo) :
    ∃ c, (applyNonEmpty cfg v d topics env pre).result = .exit c := by
  unfold applyNonEmpty
  cases v with
  | true => exact ⟨0, rfl⟩
  | false =>
    cases d with
    | true => exact ⟨0, rfl⟩
    | false =>
      rcases henv : env.error_count with _ | ec
      · exact ⟨1, rfl⟩
      · exact ⟨0, rfl⟩

/-- Claim C1 (code bug, demonstration): in Commit mode (neither `--validate`
nor `--dry-run`) with topic list `["t1"]` and a validation response that
parses with `error_count = 0`, the command echoes the error count and exits
with code 0 having made only the `validate` call — `create_or_update` is
never invoked, because the `try` block of lines 293-301 ends in an
unconditional `return 0`, leaving lines 305-306 unreachable. -/
theorem c1_commit_mode_never_reaches_upsert :
    create_s3_sink sampleCfg "n" false false false ["t1"]
        { apply := { discovered := .ok [], validateResponse := "resp",
                     error_count := some 0 },
          ticks := [] } =
      { echoes := [.text "Validation returned 0 error(s)."],
        calls := [.validate S3Config.connector_class
                    (sampleCfg.update_topics ["t1"])],
        result := .exit 0 } := by
  decide

/-- Claim C2 (counterexample): with `--auto-update` set, an empty positional
topic list, and discovery returning the empty set, the first apply is
skipped (no gateway call, "Found 0 topics." is reported) — yet the loop
body runs and even issues an upsert on the first tick.  This refutes
"for every execution in which the first apply did not succeed (including
the case where it was skipped), the loop body is never run". -/
theorem c2_loop_runs_despite_skipped_apply :
    create_s3_sink sampleCfg "n" false false true []
        { apply := { discovered := .ok [], validateResponse := "",
                     error_count := none },
          ticks := [{ discovered := .ok ["a"], upsert := .ok () }] } =
      { echoes := [.text "Discoverying Kafka topics...",
                   .text "Found 0 topics.",
                   .text "Found new topics, updating the connector..."],
        calls := [.create_or_update "n" (sampleCfg.update_topics ["a"])],
        result := .loop (.running ["a"] (sampleCfg.update_topics ["a"])) } := by
  decide

/-- Claim C2 (amended): the auto-update loop is entered exactly when
`--auto-update` is set and the resolved topic set is empty (the positional
list is empty and discovery returned the empty set).  Every non-empty topic
set makes the command `return` before line 307, so the loop runs precisely
when the first apply was skipped as a no-op — never after an actual apply. -/
theorem c2_loop_entry_iff_empty_topics (cfg : S3Config) (name : String)
    (v d au : Bool) (topiclist : List String) (env : CmdEnv) :
    (create_s3_sink cfg name v d au topiclist env).result.isLoop = true ↔
      (au = true ∧ topiclist = [] ∧ env.apply.discovered = .ok []) := by
  cases topiclist with
  | cons t tl =>
    obtain ⟨c, h⟩ := applyNonEmpty_exit cfg v d (t :: tl) env.apply []
    have hr : (create_s3_sink cfg name v d au (t :: tl) env).result =
        .exit c := by
      unfold create_s3_sink
      rw [show (applyPhase cfg v d (t :: tl) env.apply).result = .exit c from h]
    rw [hr]
    simp [CmdResult.isLoop]
  | nil =>
    rcases henv : env.apply.discovered with e | ds
    · have hap : applyPhase cfg v d [] env.apply =
          { echoes := [.text "Discoverying Kafka topics..."], calls := [],
            result := .crashed e } := by
        unfold applyPhase; rw [henv]
      have hr : (create_s3_sink cfg name v d au [] env).result = .crashed e := by
        unfold create_s3_sink; rw [hap]
      rw [hr]
      simp [CmdResult.isLoop, henv]
    · cases ds with
      | nil =>
        have hap : applyPhase cfg v d [] env.apply =
            { echoes := [.text "Discoverying Kafka topics...",
                         .text ("Found " ++
                           toString (List.length ([] : List String)) ++
                           " topics.")],
              calls := [], result := .fallthrough [] } := by
          unfold applyPhase; rw [henv]
        cases au with
        | false =>
          have hr : (create_s3_sink cfg name v d false [] env).result =
              .exit 0 := by
            unfold create_s3_sink; rw [hap]; rfl
          rw [hr]
          simp [CmdResult.isLoop, henv]
        | true =>
          have hr : (create_s3_sink cfg name v d true [] env).result =
              .loop (loopRun name [] cfg env.ticks).result := by
            unfold create_s3_sink; rw [hap]; rfl
          rw [hr]
          simp [CmdResult.isLoop, henv]
      | cons t tl =>
        obtain ⟨c, h⟩ := applyNonEmpty_exit cfg v d (t :: tl) env.apply
            [.text "Discoverying Kafka topics...",
             .text ("Found " ++ toString (t :: tl).length ++ " topics.")]
        have hap2 : (applyPhase cfg v d [] env.apply).result = .exit c := by
          have e1 : applyPhase cfg v d [] env.apply =
              applyNonEmpty cfg v d (t :: tl) env.apply
                [.text "Discoverying Kafka topics...",
                 .text ("Found " ++ toString (t :: tl).length ++ " topics.")] := by
            unfold applyPhase; rw [henv]
          rw [e1]; exact h
        have hr : (create_s3_sink cfg name v d au [] env).result = .exit c := by
          unfold create_s3_sink; rw [hap2]
        rw [hr]
        simp [CmdResult.isLoop, henv]

/-- Claim C2 (witness): a concrete invocation that enters the loop. -/
theorem c2_loop_entry_witness :
    (create_s3_sink sampleCfg "n" false false true []
        { apply := { discovered := .ok [], validateResponse := "",
                     error_count := none },
          ticks := [] }).result.isLoop = true :=
  (c2_loop_entry_iff_empty_topics sampleCfg "n" false false true [] _).mpr
    ⟨rfl, rfl, rfl⟩

/-- Claim C3: on a tick whose discovery returns `current`: if every element
of `current` is already in `topics` (the last applied set) — in particular
whenever the set shrank — no upsert is made and the state is unchanged; if
some element of `current` is not in `topics` and the upsert succeeds,
exactly one `create_or_update` is made carrying the full set `current`
(not just the delta), and the last applied set becomes `current`. -/
theorem c3_tick_diff_law (name : String) (topics current : List String)
    (cfg : S3Config) (env : TickEnv) (h : env.discovered = .ok current) :
    ((∀ t ∈ current, t ∈ topics) →
        loopTick name topics cfg env = .next topics cfg [] []) ∧
    ((∃ t ∈ current, t ∉ topics) → env.upsert = .ok () →
        loopTick name topics cfg env =
          .next current (cfg.update_topics current)
            [Echo.text "Found new topics, updating the connector..."]
            [GatewayCall.create_or_update name (cfg.update_topics current)]) := by
  have e0 : loopTick name topics cfg env =
      loopTickDiscovered name topics cfg env.upsert current := by
    unfold loopTick; rw [h]
  constructor
  · intro hall
    have hf : current.filter (fun t => !(topics.contains t)) = [] := by
      refine List.filter_eq_nil_iff.mpr fun t ht => ?_
      simp [hall t ht]
    rw [e0]
    unfold loopTickDiscovered
    rw [hf]
  · rintro ⟨t, ht, hmem⟩ hup
    have hmemf : t ∈ current.filter (fun t => !(topics.contains t)) := by
      simp [List.mem_filter, ht, hmem]
    rw [e0]
    unfold loopTickDiscovered
    rcases hfe : current.filter (fun t => !(topics.contains t)) with _ | ⟨x, xs⟩
    · rw [hfe] at hmemf; simp at hmemf
    · rw [hup]

/-- Claim C3 (witness): last applied `["a", "b"]`, tick discovers
`["a", "b", "c"]`, upsert succeeds: one upsert carrying the full set. -/
theorem c3_tick_diff_law_witness :
    loopTick "n" ["a", "b"] sampleCfg
        { discovered := .ok ["a", "b", "c"], upsert := .ok () } =
      .next ["a", "b", "c"] (sampleCfg.update_topics ["a", "b", "c"])
        [Echo.text "Found new topics, updating the connector..."]
        [GatewayCall.create_or_update "n"
          (sampleCfg.update_topics ["a", "b", "c"])] :=
  (c3_tick_diff_law "n" ["a", "b"] ["a", "b", "c"] sampleCfg _ rfl).2
    ⟨"c", by decide, by decide⟩ rfl

/-- Claim C4 (counterexample): starting from last applied `[]`, the first
tick discovers `["a"]` and its upsert raises; the second tick would
discover the same `["a"]` with a succeeding upsert — but it never runs.
Only `KeyboardInterrupt` is caught at line 323, so the failure propagates
and the run ends after exactly one upsert attempt: the same unapplied
topics are NOT retried on a subsequent tick. -/
theorem c4_failed_upsert_no_retry :
    loopRun "n" [] sampleCfg
        [{ discovered := .ok ["a"], upsert := .error .other },
         { discovered := .ok ["a"], upsert := .ok () }] =
      { echoes := [.text "Found new topics, updating the connector..."],
        calls := [.create_or_update "n" (sampleCfg.update_topics ["a"])],
        result := .crashed .other [] (sampleCfg.update_topics ["a"]) } := by
  decide

/-- Claim C4 (amended): if the upsert raises during a tick, the last applied
set `topics` is left unchanged (the `topics = current_topics` assignment at
line 322 is skipped) — but, since the loop catches only
`KeyboardInterrupt`, the exception propagates and the loop terminates: no
subsequent tick runs, whatever environments would have followed, so the
unapplied topics are not retried in-process. -/
theorem c4_failed_upsert_crashes (name : String) (topics current : List String)
    (cfg : S3Config) (env : TickEnv) (rest : List TickEnv)
    (h : env.discovered = .ok current)
    (hnew : ∃ t ∈ current, t ∉ topics)
    (hup : env.upsert = .error .other) :
    loopRun name topics cfg (env :: rest) =
      { echoes := [Echo.text "Found new topics, updating the connector..."],
        calls := [GatewayCall.create_or_update name
                    (cfg.update_topics current)],
        result := .crashed .other topics (cfg.update_topics current) } := by
  have htick : loopTick name topics cfg env =
      .crashed .other topics (cfg.update_topics current)
        [Echo.text "Found new topics, updating the connector..."]
        [GatewayCall.create_or_update name (cfg.update_topics current)] := by
    have e0 : loopTick name topics cfg env =
        loopTickDiscovered name topics cfg env.upsert current := by
      unfold loopTick; rw [h]
    obtain ⟨t, ht, hmem⟩ := hnew
    have hmemf : t ∈ current.filter (fun t => !(topics.contains t)) := by
      simp [List.mem_filter, ht, hmem]
    rw [e0]
    unfold loopTickDiscovered
    rcases hfe : current.filter (fun t => !(topics.contains t)) with _ | ⟨x, xs⟩
    · rw [hfe] at hmemf; simp at hmemf
    · rw [hup]
  unfold loopRun
  rw [htick]

/-- Claim C4 (witness): a concrete failing-upsert tick followed by no
further environments. -/
theorem c4_failed_upsert_crashes_witness :
    loopRun "n" [] sampleCfg
        [{ discovered := .ok ["b"], upsert := .error .other }] =
      { echoes := [Echo.text "Found new topics, updating the connector..."],
        calls := [GatewayCall.create_or_update "n"
                    (sampleCfg.update_topics ["b"])],
        result := .crashed .other [] (sampleCfg.update_topics ["b"]) } :=
  c4_failed_upsert_crashes "n" [] ["b"] sampleCfg _ [] rfl
    ⟨"b", by decide, by decide⟩ rfl

/-- Claim C5 (counterexample): a tick whose discovery raises terminates the
whole run — the second tick, which would have discovered and applied a new
topic, never runs.  The loop does NOT continue to the next tick (only
`KeyboardInterrupt` is caught), and nothing is reported by the loop itself
(no echo). -/
theorem c5_discovery_failure_ends_loop :
    loopRun "n" ["a"] sampleCfg
        [{ discovered := .error .other, upsert := .ok () },
         { discovered := .ok ["a", "b"], upsert := .ok () }] =
      { echoes := [], calls := [],
        result := .crashed .other ["a"] sampleCfg } := by
  decide

/-- Claim C5 (amended): a discovery failure during a tick (any exception
other than `KeyboardInterrupt`) leaves the last applied set unchanged and
makes no gateway call, but it propagates out of the loop: the loop
terminates instead of continuing to the next tick. -/
theorem c5_discovery_failure_crashes (name : String) (topics : List String)
    (cfg : S3Config) (env : TickEnv) (rest : List TickEnv)
    (h : env.discovered = .error .other) :
    loopRun name topics cfg (env :: rest) =
      { echoes := [], calls := [],
        result := .crashed .other topics cfg } := by
  have htick : loopTick name topics cfg env =
      .crashed .other topics cfg [] [] := by
    unfold loopTick; rw [h]
  unfold loopRun
  rw [htick]

/-- Claim C5 (witness): a concrete failing-discovery tick. -/
theorem c5_discovery_failure_crashes_witness :
    loopRun "n" ["x"] sampleCfg
        [{ discovered := .error .other, upsert := .ok () }] =
      { echoes := [], calls := [],
        result := .crashed .other ["x"] sampleCfg } :=
  c5_discovery_failure_crashes "n" ["x"] sampleCfg _ [] rfl

/-- The `--validate` branch of the non-empty apply body (lines 277-284):
one `validate` call, the raw response echoed, exit code 0. -/
theorem applyNonEmpty_validate (cfg : S3Config) (d : Bool)
    (topics : List String) (env : ApplyEnv) (pre : List Echo) :
    applyNonEmpty cfg true d topics env pre =
      { echoes := pre ++ [.raw env.validateResponse],
        calls := [.validate S3Config.connector_class (cfg.update_topics topics)],
        result := .exit 0 } := rfl

/-- The `--dry-run` branch of the non-empty apply body (lines 286-288):
no gateway call, the configuration document echoed, exit code 0. -/
theorem applyNonEmpty_dry_run (cfg : S3Config) (topics : List String)
    (env : ApplyEnv) (pre : List Echo) :
    applyNonEmpty cfg false true topics env pre =
      { echoes := pre ++ [.doc (cfg.update_topics topics)],
        calls := [], result := .exit 0 } := rfl

/-- The Commit branch when `json.loads(validation)["error_count"]` raises
(lines 302-304): the raw response is echoed and the command returns 1. -/
theorem applyNonEmpty_parse_failure (cfg : S3Config) (topics : List String)
    (env : ApplyEnv) (pre : List Echo) (hec : env.error_count = none) :
    applyNonEmpty cfg false false topics env pre =
      { echoes := pre ++ [.raw env.validateResponse],
        calls := [.validate S3Config.connector_class (cfg.update_topics topics)],
        result := .exit 1 } := by
  unfold applyNonEmpty
  rw [hec]
  rfl

/-- When the resolved topic list is a non-empty `ts`, the apply phase is
the non-empty body applied to `ts` (with the discovery echoes as prefix
when discovery ran). -/
theorem applyPhase_resolved (cfg : S3Config) (v d : Bool)
    (topiclist ts : List String) (env : ApplyEnv)
    (hres : resolveTopics topiclist env = .ok ts) (hne : ts ≠ []) :
    ∃ pre, applyPhase cfg v d topiclist env = applyNonEmpty cfg v d ts env pre := by
  cases topiclist with
  | cons t tl =>
    have hts : t :: tl = ts := by simpa [resolveTopics] using hres
    subst hts
    exact ⟨[], rfl⟩
  | nil =>
    have hd : env.discovered = .ok ts := by simpa [resolveTopics] using hres
    cases ts with
    | nil => exact absurd rfl hne
    | cons t tl =>
      refine ⟨[.text "Discoverying Kafka topics...",
               .text ("Found " ++ toString (t :: tl).length ++ " topics.")], ?_⟩
      unfold applyPhase; rw [hd]

/-- Claim C6: in Commit mode (neither `--validate` nor `--dry-run`), when
the validation response cannot be parsed (`error_count` extraction raises),
the raw response text is echoed to the caller, the command exits with the
failing code 1, and the only gateway call of the whole run is the
`validate` — `create_or_update` is never called. -/
theorem c6_parse_failure_fails_closed (cfg : S3Config) (name : String)
    (au : Bool) (topiclist ts : List String) (env : CmdEnv)
    (hres : resolveTopics topiclist env.apply = .ok ts) (hne : ts ≠ [])
    (hec : env.apply.error_count = none) :
    (create_s3_sink cfg name false false au topiclist env).calls =
        [GatewayCall.validate S3Config.connector_class
          (cfg.update_topics ts)] ∧
      Echo.raw env.apply.validateResponse ∈
        (create_s3_sink cfg name false false au topiclist env).echoes ∧
      (create_s3_sink cfg name false false au topiclist env).result =
        .exit 1 := by
  obtain ⟨pre, hap⟩ :=
    applyPhase_resolved cfg false false topiclist ts env.apply hres hne
  rw [applyNonEmpty_parse_failure cfg ts env.apply pre hec] at hap
  have hrun : create_s3_sink cfg name false false au topiclist env =
      { echoes := pre ++ [.raw env.apply.validateResponse],
        calls := [.validate S3Config.connector_class (cfg.update_topics ts)],
        result := .exit 1 } := by
    unfold create_s3_sink; rw [hap]
  rw [hrun]
  exact ⟨rfl, by simp, rfl⟩

/-- Claim C6 (witness): a malformed validation response on topic `["t"]`. -/
theorem c6_parse_failure_witness :
    (create_s3_sink sampleCfg "n" false false false ["t"]
        { apply := { discovered := .ok [], validateResponse := "boom",
                     error_count := none },
          ticks := [] }).calls =
        [GatewayCall.validate S3Config.connector_class
          (sampleCfg.update_topics ["t"])] ∧
      Echo.raw "boom" ∈
        (create_s3_sink sampleCfg "n" false false false ["t"]
          { apply := { discovered := .ok [], validateResponse := "boom",
                       error_count := none },
            ticks := [] }).echoes ∧
      (create_s3_sink sampleCfg "n" false false false ["t"]
          { apply := { discovered := .ok [], validateResponse := "boom",
                       error_count := none },
            ticks := [] }).result = .exit 1 :=
  c6_parse_failure_fails_closed sampleCfg "n" false ["t"] ["t"] _ rfl
    (by decide) rfl

/-- Claim C7 (counterexample): with BOTH `--dry-run` and `--validate` set
and a non-empty topic list, the gateway IS contacted: the `--validate`
branch at line 277 runs first and calls `connect.validate`, refuting
"for every input with the --dry-run flag set, no ConnectGateway method is
ever invoked". -/
theorem c7_dry_run_with_validate_calls_gateway :
    (create_s3_sink sampleCfg "n" true true false ["a"]
        { apply := { discovered := .ok [], validateResponse := "resp",
                     error_count := some 0 },
          ticks := [] }).calls =
      [.validate S3Config.connector_class (sampleCfg.update_topics ["a"])] := by
  decide

/-- Claim C7 (amended): for every input with `--dry-run` set, `--validate`
NOT set, and a non-empty resolved topic list, no gateway method is invoked
in the whole run, the built configuration document is echoed, and the
command exits 0 (so the auto-update loop, which could also call the
gateway, is never reached). -/
theorem c7_dry_run_no_calls (cfg : S3Config) (name : String) (au : Bool)
    (topiclist ts : List String) (env : CmdEnv)
    (hres : resolveTopics topiclist env.apply = .ok ts) (hne : ts ≠ []) :
    (create_s3_sink cfg name false true au topiclist env).calls = [] ∧
      Echo.doc (cfg.update_topics ts) ∈
        (create_s3_sink cfg name false true au topiclist env).echoes ∧
      (create_s3_sink cfg name false true au topiclist env).result =
        .exit 0 := by
  obtain ⟨pre, hap⟩ :=
    applyPhase_resolved cfg false true topiclist ts env.apply hres hne
  rw [applyNonEmpty_dry_run cfg ts env.apply pre] at hap
  have hrun : create_s3_sink cfg name false true au topiclist env =
      { echoes := pre ++ [.doc (cfg.update_topics ts)],
        calls := [], result := .exit 0 } := by
    unfold create_s3_sink; rw [hap]
  rw [hrun]
  exact ⟨rfl, by simp, rfl⟩

/-- Claim C7 (witness): plain `--dry-run` on topic `["a"]`. -/
theorem c7_dry_run_no_calls_witness :
    (create_s3_sink sampleCfg "n" false true false ["a"]
        { apply := { discovered := .ok [], validateResponse := "",
                     error_count := none },
          ticks := [] }).calls = [] ∧
      Echo.doc (sampleCfg.update_topics ["a"]) ∈
        (create_s3_sink sampleCfg "n" false true false ["a"]
          { apply := { discovered := .ok [], validateResponse := "",
                       error_count := none },
            ticks := [] }).echoes ∧
      (create_s3_sink sampleCfg "n" false true false ["a"]
          { apply := { discovered := .ok [], validateResponse := "",
                       error_count := none },
            ticks := [] }).result = .exit 0 :=
  c7_dry_run_no_calls sampleCfg "n" false ["a"] ["a"] _ rfl (by decide)

/-- Claim C8: when the resolved topic set is empty (the positional list is
empty and discovery returns no topics), the apply phase makes no gateway
call at all, reports "Found 0 topics." to the caller, and falls through
with an empty topic list. -/
theorem c8_empty_topics_no_calls (cfg : S3Config) (v d : Bool)
    (env : ApplyEnv) (h : env.discovered = .ok []) :
    (applyPhase cfg v d [] env).calls = [] ∧
      Echo.text "Found 0 topics." ∈ (applyPhase cfg v d [] env).echoes ∧
      (applyPhase cfg v d [] env).result = .fallthrough [] := by
  have hap : applyPhase cfg v d [] env =
      { echoes := [.text "Discoverying Kafka topics...",
                   .text ("Found " ++
                     toString (List.length ([] : List String)) ++
                     " topics.")],
        calls := [], result := .fallthrough [] } := by
    unfold applyPhase; rw [h]
  rw [hap]
  refine ⟨rfl, ?_, rfl⟩
  decide

/-- Claim C8 (witness): a concrete empty-discovery invocation. -/
theorem c8_empty_topics_witness :
    (applyPhase sampleCfg false false []
        { discovered := .ok [], validateResponse := "",
          error_count := none }).calls = [] ∧
      Echo.text "Found 0 topics." ∈
        (applyPhase sampleCfg false false []
          { discovered := .ok [], validateResponse := "",
            error_count := none }).echoes ∧
      (applyPhase sampleCfg false false []
          { discovered := .ok [], validateResponse := "",
            error_count := none }).result = .fallthrough [] :=
  c8_empty_topics_no_calls sampleCfg false false _ rfl

/-- Claim C9: for every non-empty resolved topic list, an apply with
`--validate` set makes exactly one gateway call — the `validate` — echoes
the raw validation result for display, and exits 0; `create_or_update` is
never called anywhere in the run (remote state is not mutated). -/
theorem c9_validate_mode_behavior (cfg : S3Config) (name : String)
    (d au : Bool) (topiclist ts : List String) (env : CmdEnv)
    (hres : resolveTopics topiclist env.apply = .ok ts) (hne : ts ≠ []) :
    (create_s3_sink cfg name true d au topiclist env).calls =
        [GatewayCall.validate S3Config.connector_class
          (cfg.update_topics ts)] ∧
      Echo.raw env.apply.validateResponse ∈
        (create_s3_sink cfg name true d au topiclist env).echoes ∧
      (create_s3_sink cfg name true d au topiclist env).result = .exit 0 := by
  obtain ⟨pre, hap⟩ :=
    applyPhase_resolved cfg true d topiclist ts env.apply hres hne
  rw [applyNonEmpty_validate cfg d ts env.apply pre] at hap
  have hrun : create_s3_sink cfg name true d au topiclist env =
      { echoes := pre ++ [.raw env.apply.validateResponse],
        calls := [.validate S3Config.connector_class (cfg.update_topics ts)],
        result := .exit 0 } := by
    unfold create_s3_sink; rw [hap]
  rw [hrun]
  exact ⟨rfl, by simp, rfl⟩

/-- Claim C9 (witness): `--validate` on topic `["a"]`. -/
theorem c9_validate_mode_witness :
    (create_s3_sink sampleCfg "n" true false false ["a"]
        { apply := { discovered := .ok [], validateResponse := "result",
                     error_count := none },
          ticks := [] }).calls =
        [GatewayCall.validate S3Config.connector_class
          (sampleCfg.update_topics ["a"])] ∧
      Echo.raw "result" ∈
        (create_s3_sink sampleCfg "n" true false false ["a"]
          { apply := { discovered := .ok [], validateResponse := "result",
                       error_count := none },
            ticks := [] }).echoes ∧
      (create_s3_sink sampleCfg "n" true false false ["a"]
          { apply := { discovered := .ok [], validateResponse := "result",
                       error_count := none },
            ticks := [] }).result = .exit 0 :=
  c9_validate_mode_behavior sampleCfg "n" false false ["a"] ["a"] _ rfl
    (by decide)

/-- Every gateway call a single loop iteration makes is a
`create_or_update`: the loop body contains no `validate` call. -/
theorem loopTick_calls_no_validate (name : String) (topics : List String)
    (cfg : S3Config) (env : TickEnv) :
    ((loopTick name topics cfg env).callsOf.all fun c => !(c.isValidate)) =
      true := by
  rcases hd : env.discovered with e | current
  · cases e with
    | keyboardInterrupt =>
      have e0 : loopTick name topics cfg env = .stopped topics cfg [] [] := by
        unfold loopTick; rw [hd]
      simp [e0, TickOut.callsOf]
    | other =>
      have e0 : loopTick name topics cfg env =
          .crashed .other topics cfg [] [] := by
        unfold loopTick; rw [hd]
      simp [e0, TickOut.callsOf]
  · have e0 : loopTick name topics cfg env =
        loopTickDiscovered name topics cfg env.upsert current := by
      unfold loopTick; rw [hd]
    rw [e0]
    unfold loopTickDiscovered
    rcases hf : current.filter (fun t => !(topics.contains t)) with _ | ⟨x, xs⟩
    · simp [TickOut.callsOf]
    · rcases hu : env.upsert with eu | u
      · cases eu <;> simp [TickOut.callsOf, GatewayCall.isValidate]
      · simp [TickOut.callsOf, GatewayCall.isValidate]

/-- Claim C10: in every run of the auto-update loop, every gateway call
issued is a `create_or_update` — the loop never calls
`ConnectGateway.validate`, so no upsert from inside the loop is preceded by
a validation call in its tick: loop-pushed configurations bypass the
validate-before-upsert check of one-shot Commit mode. -/
theorem c10_loop_never_calls_validate (name : String) (topics : List String)
    (cfg : S3Config) (ticks : List TickEnv) :
    ((loopRun name topics cfg ticks).calls.all fun c => !(c.isValidate)) =
      true := by
  induction ticks generalizing topics cfg with
  | nil => rfl
  | cons env rest ih =>
    have h := loopTick_calls_no_validate name topics cfg env
    unfold loopRun
    rcases ht : loopTick name topics cfg env with
        ⟨ts, cfg1, es, cs⟩ | ⟨ts, cfg1, es, cs⟩ | ⟨e, ts, cfg1, es, cs⟩
    · rw [ht] at h
      simp [TickOut.callsOf] at h
      simp [List.all_append, ih]
      exact h
    · rw [ht] at h
      simp [TickOut.callsOf] at h
      simpa using h
    · rw [ht] at h
      simp [TickOut.callsOf] at h
      simpa using h

/-- Claim C10 (witness): a concrete two-tick run issuing one upsert. -/
theorem c10_loop_never_calls_validate_witness :
    ((loopRun "n" [] sampleCfg
        [{ discovered := .ok ["a"], upsert := .ok () },
         { discovered := .ok ["a"], upsert := .ok () }]).calls.all
      fun c => !(c.isValidate)) = true :=
  c10_loop_never_calls_validate "n" [] sampleCfg
    [{ discovered := .ok ["a"], upsert := .ok () },
     { discovered := .ok ["a"], upsert := .ok () }]

end KafkaConnect
